import Mathlib

/-!
Verification of the extraction front-end orchestration logic
(`plaso/frontend/extraction_frontend.py`).

The Python module is shallowly embedded: every decision made by the
front-end itself is translated into an executable Lean definition, while
external collaborators (the `os.path` file-system queries, the parser and
hasher registries, the engine with its knowledge base, dfVFS) are closed
over by a `World` record of oracle functions.  A Python string-or-None
value is modelled as `Option String`, and Python string truthiness
(`if s:`) as `strTruthy`.
-/

/-- Python `x in y` substring membership over lists of characters:
`startsWithChars needle hay` is true when `needle` is an initial segment
of `hay`. -/
def startsWithChars : List Char → List Char → Bool
  | [], _ => true
  | _ :: _, [] => false
  | a :: as, b :: bs => a == b && startsWithChars as bs

/-- `hasSubChars needle hay` is true when `needle` occurs as a contiguous
run inside `hay` (Python `needle in hay`). -/
def hasSubChars (needle : List Char) : List Char → Bool
  | [] => needle.isEmpty
  | c :: rest => startsWithChars needle (c :: rest) || hasSubChars needle rest

/-- Python `needle in hay` for strings. -/
def strContains (hay needle : String) : Bool :=
  hasSubChars needle.data hay.data

/-- Python `str.lower()` (ASCII case folding, which is all the source
exercises). -/
def strLower (s : String) : String :=
  String.mk (s.data.map Char.toLower)

/-- Python truthiness of a string-or-None value: `None` and the empty
string are falsy. -/
def strTruthy : Option String → Bool
  | none => false
  | some s => !(s == "")

/-- Modelled from the spec: operating-system identifier `Linux` from
`plaso.lib.definitions` (the module is an external collaborator; the spec
enumerates the identifiers {Linux, MacOSX, Windows}). -/
def OS_LINUX : String := "Linux"

/-- Modelled from the spec: operating-system identifier `MacOSX` from
`plaso.lib.definitions`. -/
def OS_MACOSX : String := "MacOSX"

/-- Modelled from the spec: operating-system identifier `Windows` from
`plaso.lib.definitions`. -/
def OS_WINDOWS : String := "Windows"

/-- `_GetParserFilterPreset(os_guess, os_version)`: determines the parser
filter preset, where `none` represents all parsers and plugins.  Direct
translation of the two-tier heuristic: a non-empty `os_version` is lower
cased and matched against Windows substrings in order; if that yields no
preset, a non-empty `os_guess` is compared against the enumerated OS
identifiers. -/
def getParserFilterPreset (os_guess : String) (os_version : String) :
    Option String :=
  let fromVersion : Option String :=
    if os_version ≠ "" then
      let v := strLower os_version
      if strContains v "windows xp" then some "winxp"
      else if strContains v "windows server 2000" then some "winxp"
      else if strContains v "windows server 2003" then some "winxp"
      else if strContains v "windows" then some "win7"
      else none
    else none
  match fromVersion with
  | some preset => some preset
  | none =>
    if os_guess ≠ "" then
      if os_guess = OS_LINUX then some "linux"
      else if os_guess = OS_MACOSX then some "macosx"
      else if os_guess = OS_WINDOWS then some "win7"
      else none
    else none

/-- Modelled from the spec: dfVFS source type identifier for a single
file (the dfVFS definitions module is an external collaborator; the spec
fixes the set {File, Directory, StorageMediaDevice, StorageMediaImage,
other}). -/
def SOURCE_TYPE_FILE : String := "file"

/-- Modelled from the spec: dfVFS source type identifier for a
directory. -/
def SOURCE_TYPE_DIRECTORY : String := "directory"

/-- Modelled from the spec: dfVFS source type identifier for a storage
media device. -/
def SOURCE_TYPE_STORAGE_MEDIA_DEVICE : String := "storage media device"

/-- Modelled from the spec: dfVFS source type identifier for a storage
media image. -/
def SOURCE_TYPE_STORAGE_MEDIA_IMAGE : String := "storage media image"

/-- `_SOURCE_TYPES_TO_PREPROCESS`: the source types for which
preprocessing is run (the Python frozenset is modelled as a list queried
through `List.contains`). -/
def SOURCE_TYPES_TO_PREPROCESS : List String :=
  [SOURCE_TYPE_DIRECTORY, SOURCE_TYPE_STORAGE_MEDIA_DEVICE,
   SOURCE_TYPE_STORAGE_MEDIA_IMAGE]

/-- The exceptions raised by the front-end itself.  The spec's
`InvalidConfiguration` error is the code's `errors.BadConfigOption`. -/
inductive PlasoError where
  | badConfigOption (msg : String)
deriving DecidableEq

/-- The engine's knowledge base: the mutable store of environment facts
populated by preprocessing and read by the front-end (`platform`,
`GetValue`, the currently set timezone, and path attributes). -/
structure KnowledgeBase where
  platform : String
  getValue : String → Option String
  timezone : String
  pathAttributes : List (String × String)

/-- The oracle record closing the front-end over its external
collaborators: `os.path` and `os.access` queries, the parser and hasher
registries, the fresh engine knowledge base, the engine's
`PreprocessSources` routine (returning the possibly partially populated
knowledge base and, when an `IOError` was raised, its message), the set
of timezone strings `knowledge_base.SetTimezone` accepts, and
`BuildFindSpecsFromFile`. -/
structure World where
  pathExists : Option String → Bool
  isFile : Option String → Bool
  dirname : Option String → String
  access : String → Bool
  getParserAndPluginNames : Option String → List String
  getParsers : Option String → List String
  getHasherNamesFromString : Option String → List String
  freshKnowledgeBase : KnowledgeBase
  enginePreprocess : KnowledgeBase → KnowledgeBase × Option String
  timezoneSupported : String → Bool
  buildFindSpecsFromFile : Option String → List (String × String) → List String

/-- The front-end's instance attributes as set by `__init__` and the
public setters. -/
structure FrontendState where
  debug_mode : Bool
  enable_profiling : Bool
  filter_expression : Option String
  filter_object : Option Unit
  hasher_names : List String
  mount_path : Option String
  parser_names : Option (List String)
  profiling_directory : Option String
  profiling_sample_rate : Nat
  profiling_type : String
  use_zeromq : Bool
  show_worker_memory_information : Bool
  storage_file_path : Option String
  text_prepend : Option String

/-- `_DEFAULT_PROFILING_SAMPLE_RATE`. -/
def DEFAULT_PROFILING_SAMPLE_RATE : Nat := 1000

/-- `__init__`: the freshly constructed front-end state. -/
def initialFrontendState : FrontendState :=
  { debug_mode := false
    enable_profiling := false
    filter_expression := none
    filter_object := none
    hasher_names := []
    mount_path := none
    parser_names := none
    profiling_directory := none
    profiling_sample_rate := DEFAULT_PROFILING_SAMPLE_RATE
    profiling_type := "all"
    use_zeromq := true
    show_worker_memory_information := false
    storage_file_path := none
    text_prepend := none }

/-- The engine variant produced by `_CreateEngine`: the configuration
copied from the front-end state, the variant tag, the multi-process-only
transport flag, and the fresh knowledge base the engine exposes. -/
structure Engine where
  singleProcess : Bool
  debug_output : Bool
  enable_profiling : Bool
  profiling_directory : Option String
  profiling_sample_rate : Nat
  profiling_type : String
  use_zeromq : Option Bool
  knowledge_base : KnowledgeBase

/-- `_CreateEngine(single_process_mode)`: builds the single-process or
multi-process engine from the front-end settings. -/
def createEngine (w : World) (st : FrontendState) (single_process_mode : Bool) :
    Engine :=
  if single_process_mode then
    { singleProcess := true
      debug_output := st.debug_mode
      enable_profiling := st.enable_profiling
      profiling_directory := st.profiling_directory
      profiling_sample_rate := st.profiling_sample_rate
      profiling_type := st.profiling_type
      use_zeromq := none
      knowledge_base := w.freshKnowledgeBase }
  else
    { singleProcess := false
      debug_output := st.debug_mode
      enable_profiling := st.enable_profiling
      profiling_directory := st.profiling_directory
      profiling_sample_rate := st.profiling_sample_rate
      profiling_type := st.profiling_type
      use_zeromq := some st.use_zeromq
      knowledge_base := w.freshKnowledgeBase }

/-- The directory that `_CheckStorageFile` tests for writability:
`os.path.dirname` of the storage path, defaulting to `"."` when empty. -/
def storageDirname (w : World) (storage_file_path : Option String) : String :=
  let dirname0 := w.dirname storage_file_path
  if dirname0 = "" then "." else dirname0

/-- `_CheckStorageFile(storage_file_path)`: raises `BadConfigOption` when
the path exists but is not a file, or when the containing directory is
not writable; otherwise succeeds, returning whether the
appending-to-existing-file warning was logged. -/
def checkStorageFile (w : World) (storage_file_path : Option String) :
    Except PlasoError Bool :=
  if w.pathExists storage_file_path && !(w.isFile storage_file_path) then
    Except.error (PlasoError.badConfigOption
      "Storage file already exists and is not a file.")
  else
    let appendWarning := w.pathExists storage_file_path
    if !(w.access (storageDirname w storage_file_path)) then
      Except.error (PlasoError.badConfigOption
        "Unable to write to storage file.")
    else
      Except.ok appendWarning

/-- `_PreprocessSources`: delegates to the engine's `PreprocessSources`;
an `IOError` is logged and swallowed.  Returns the knowledge base after
the attempt and whether an `IOError` was raised. -/
def preprocessSourcesFE (w : World) (kb : KnowledgeBase) :
    KnowledgeBase × Bool :=
  match w.enginePreprocess kb with
  | (kb2, some _) => (kb2, true)
  | (kb2, none) => (kb2, false)

/-- The timezone string `_SetTimezone` selects before attempting to apply
it: the knowledge base `time_zone_str` value when truthy, else the
caller-supplied value when truthy, else `"UTC"`. -/
def selectTimezone (kb : KnowledgeBase) (timezone : Option String) : String :=
  let time_zone_str := kb.getValue "time_zone_str"
  let default_timezone :=
    if strTruthy time_zone_str then time_zone_str else timezone
  let default_timezone2 :=
    if strTruthy default_timezone then default_timezone else some "UTC"
  default_timezone2.getD "UTC"

/-- `_SetTimezone(timezone)`: selects the timezone string by precedence
and calls `knowledge_base.SetTimezone` on it; a `ValueError` (an
unsupported timezone) is caught and logged, leaving the knowledge base
unchanged.  Returns the updated knowledge base and the attempted
string. -/
def setTimezone (w : World) (kb : KnowledgeBase) (timezone : Option String) :
    KnowledgeBase × String :=
  let tz := selectTimezone kb timezone
  if w.timezoneSupported tz then ({ kb with timezone := tz }, tz)
  else (kb, tz)

/-- The session attribute container assembled by `_CreateSession`. -/
structure Session where
  command_line_arguments : Option String
  enabled_parser_names : List String
  filter_expression : Option String
  filter_file : Option String
  debug_mode : Bool
  parser_filter_expression : Option String
  preferred_encoding : String
  preferred_year : Option Int

/-- `_CreateSession`: queries the parser registry with the parser filter
expression and snapshots the result, the expression itself, and the
front-end state into a session. -/
def createSession (w : World) (st : FrontendState)
    (command_line_arguments : Option String) (filter_file : Option String)
    (parser_filter_expression : Option String) (preferred_encoding : String)
    (preferred_year : Option Int) : Session :=
  { command_line_arguments := command_line_arguments
    enabled_parser_names := w.getParserAndPluginNames parser_filter_expression
    filter_expression := st.filter_expression
    filter_file := filter_file
    debug_mode := st.debug_mode
    parser_filter_expression := parser_filter_expression
    preferred_encoding := preferred_encoding
    preferred_year := preferred_year }

/-- The keyword arguments of `ProcessSources` that carry decision-relevant
values (the opaque pass-through values — path specifications, the status
callback, the temporary directory — are elided: no front-end decision
reads them). -/
structure ProcessArgs where
  source_type : String
  command_line_arguments : Option String
  enable_sigsegv_handler : Bool
  filter_file : Option String
  force_preprocessing : Bool
  hasher_names_string : Option String
  number_of_extraction_workers : Nat
  parser_filter_expression : Option String
  preferred_encoding : String
  preferred_year : Option Int
  process_archive_files : Bool
  single_process_mode : Bool
  timezone : Option String

/-- The observable outcome of a completed `ProcessSources` run: every
decision the orchestration makes on the way to engine dispatch. -/
structure RunResult where
  appendWarning : Bool
  engine : Engine
  preprocessInvoked : Bool
  preprocessRaisedIOError : Bool
  kbAfterPreprocess : KnowledgeBase
  resolvedFilterExpr : Option String
  parserNames : List String
  hasherNames : List String
  attemptedTimezone : String
  finalKB : KnowledgeBase
  filterFindSpecs : Option (List String)
  session : Session
  dispatchSingleProcess : Bool
  dispatchFilterExpr : Option String

/-- The body of `ProcessSources` after the storage-file check succeeded
(lines 384-472): force single-process mode for a file source, create the
engine, preprocess when required, derive the parser filter expression
from the knowledge base when none was supplied, resolve parser and
hasher names, set the timezone, build find specifications, build the
session, and dispatch to the engine. -/
def runAfterCheck (w : World) (st : FrontendState) (a : ProcessArgs)
    (appendWarning : Bool) : RunResult :=
  let single_process_mode :=
    if a.source_type = SOURCE_TYPE_FILE then true else a.single_process_mode
  let engine := createEngine w st single_process_mode
  let kb0 := engine.knowledge_base
  let preprocess_needed :=
    a.force_preprocessing || SOURCE_TYPES_TO_PREPROCESS.contains a.source_type
  let pre := if preprocess_needed then preprocessSourcesFE w kb0
             else (kb0, false)
  let kb1 := pre.1
  let parser_filter_expression :=
    if strTruthy a.parser_filter_expression then a.parser_filter_expression
    else
      getParserFilterPreset kb1.platform ((kb1.getValue "osversion").getD "")
  let parserNames := w.getParsers parser_filter_expression
  let hasherNames := w.getHasherNamesFromString a.hasher_names_string
  let tzr := setTimezone w kb1 a.timezone
  let kb2 := tzr.1
  let filterFindSpecs :=
    if strTruthy a.filter_file then
      some (w.buildFindSpecsFromFile a.filter_file kb2.pathAttributes)
    else none
  let session := createSession w st a.command_line_arguments a.filter_file
    parser_filter_expression a.preferred_encoding a.preferred_year
  { appendWarning := appendWarning
    engine := engine
    preprocessInvoked := preprocess_needed
    preprocessRaisedIOError := pre.2
    kbAfterPreprocess := kb1
    resolvedFilterExpr := parser_filter_expression
    parserNames := parserNames
    hasherNames := hasherNames
    attemptedTimezone := tzr.2
    finalKB := kb2
    filterFindSpecs := filterFindSpecs
    session := session
    dispatchSingleProcess := single_process_mode
    dispatchFilterExpr := parser_filter_expression }

/-- `ProcessSources`: validates the storage target first (a failure
aborts the run before any engine is created), then runs the remaining
steps through engine dispatch. -/
def processSources (w : World) (st : FrontendState) (a : ProcessArgs) :
    Except PlasoError RunResult :=
  match checkStorageFile w st.storage_file_path with
  | Except.error e => Except.error e
  | Except.ok appendWarning => Except.ok (runAfterCheck w st a appendWarning)

/-- The public mutating operations of the front-end. -/
inductive FrontendOp where
  | disableProfiling
  | enableProfiling (dir : Option String) (rate : Nat) (ptype : String)
  | setDebugMode (b : Bool)
  | setShowMemoryInformation (b : Bool)
  | setStorageFile (p : String)
  | setTextPrepend (t : String)
  | setUseZeroMQ (b : Bool)
  | runProcessSources (w : World) (a : ProcessArgs)

/-- The instance-state effect of one `ProcessSources` call: on a
configuration error the exception propagates before the bookkeeping
assignments; on success `_parser_names` and `_hasher_names` are
refreshed.  `_filter_expression` is never assigned. -/
def stateAfterProcessSources (w : World) (st : FrontendState)
    (a : ProcessArgs) : FrontendState :=
  match processSources w st a with
  | Except.error _ => st
  | Except.ok r =>
    { st with parser_names := some r.parserNames
              hasher_names := r.hasherNames }

/-- The state transition of each public operation (`DisableProfiling`,
`EnableProfiling`, `SetDebugMode`, `SetShowMemoryInformation`,
`SetStorageFile`, `SetTextPrepend`, `SetUseZeroMQ`, `ProcessSources`). -/
def applyOp (st : FrontendState) : FrontendOp → FrontendState
  | FrontendOp.disableProfiling => { st with enable_profiling := false }
  | FrontendOp.enableProfiling d r t =>
    { st with enable_profiling := true
              profiling_directory := d
              profiling_sample_rate := r
              profiling_type := t }
  | FrontendOp.setDebugMode b => { st with debug_mode := b }
  | FrontendOp.setShowMemoryInformation b =>
    { st with show_worker_memory_information := b }
  | FrontendOp.setStorageFile p => { st with storage_file_path := some p }
  | FrontendOp.setTextPrepend t => { st with text_prepend := some t }
  | FrontendOp.setUseZeroMQ b => { st with use_zeromq := b }
  | FrontendOp.runProcessSources w a => stateAfterProcessSources w st a

/-- A sequence of public operations applied in order, starting from a
given state. -/
def applyOps (st : FrontendState) : List FrontendOp → FrontendState
  | [] => st
  | op :: ops => applyOps (applyOp st op) ops

/-- A knowledge base with no facts, as exposed by a fresh engine. -/
def flatKB : KnowledgeBase :=
  { platform := ""
    getValue := fun _ => none
    timezone := "UTC"
    pathAttributes := [] }

/-- A benign concrete world used to instantiate the theorems: nothing
exists on disk, every directory is writable, the registries are empty,
preprocessing succeeds without learning anything, and every timezone
string is supported. -/
def baseWorld : World :=
  { pathExists := fun _ => false
    isFile := fun _ => false
    dirname := fun _ => ""
    access := fun _ => true
    getParserAndPluginNames := fun _ => []
    getParsers := fun _ => []
    getHasherNamesFromString := fun _ => []
    freshKnowledgeBase := flatKB
    enginePreprocess := fun kb => (kb, none)
    timezoneSupported := fun _ => true
    buildFindSpecsFromFile := fun _ _ => [] }

/-- Default keyword arguments of `ProcessSources`, applied to a plain
directory source. -/
def defaultArgs : ProcessArgs :=
  { source_type := SOURCE_TYPE_DIRECTORY
    command_line_arguments := none
    enable_sigsegv_handler := false
    filter_file := none
    force_preprocessing := false
    hasher_names_string := none
    number_of_extraction_workers := 0
    parser_filter_expression := none
    preferred_encoding := "utf-8"
    preferred_year := none
    process_archive_files := false
    single_process_mode := false
    timezone := some "UTC" }

theorem createEngine_singleProcess (w : World) (st : FrontendState)
    (b : Bool) : (createEngine w st b).singleProcess = b := by
  cases b <;> rfl

theorem createEngine_knowledge_base (w : World) (st : FrontendState)
    (b : Bool) : (createEngine w st b).knowledge_base = w.freshKnowledgeBase := by
  cases b <;> rfl

theorem processSources_ok_cases (w : World) (st : FrontendState)
    (a : ProcessArgs) (r : RunResult)
    (h : processSources w st a = Except.ok r) :
    ∃ warn, checkStorageFile w st.storage_file_path = Except.ok warn ∧
      r = runAfterCheck w st a warn := by
  revert h
  unfold processSources
  cases hc : checkStorageFile w st.storage_file_path with
  | error e => intro h; exact Except.noConfusion h
  | ok warn =>
    intro h
    injection h with h2
    exact ⟨warn, rfl, h2.symm⟩

/-- C1: parser-filter preset resolution is a deterministic total
function (it is a Lean function of its two arguments): a non-empty
`osVersion` is matched case-insensitively against the Windows substrings
in order (`windows xp`, `windows server 2000`, `windows server 2003`
yielding `winxp`, then any string containing `windows` yielding `win7`);
on an empty `osVersion` the guess maps Linux to `linux`, MacOSX to
`macosx` and Windows to `win7`, anything else to no preset; and the six
concrete example resolutions hold. -/
theorem getParserFilterPreset_spec :
    (∀ g v, v ≠ "" → strContains (strLower v) "windows xp" = true →
      getParserFilterPreset g v = some "winxp") ∧
    (∀ g v, v ≠ "" →
      strContains (strLower v) "windows xp" = false →
      strContains (strLower v) "windows server 2000" = true →
      getParserFilterPreset g v = some "winxp") ∧
    (∀ g v, v ≠ "" →
      strContains (strLower v) "windows xp" = false →
      strContains (strLower v) "windows server 2000" = false →
      strContains (strLower v) "windows server 2003" = true →
      getParserFilterPreset g v = some "winxp") ∧
    (∀ g v, v ≠ "" →
      strContains (strLower v) "windows xp" = false →
      strContains (strLower v) "windows server 2000" = false →
      strContains (strLower v) "windows server 2003" = false →
      strContains (strLower v) "windows" = true →
      getParserFilterPreset g v = some "win7") ∧
    getParserFilterPreset OS_LINUX "" = some "linux" ∧
    getParserFilterPreset OS_MACOSX "" = some "macosx" ∧
    getParserFilterPreset OS_WINDOWS "" = some "win7" ∧
    (∀ g, g ≠ OS_LINUX → g ≠ OS_MACOSX → g ≠ OS_WINDOWS →
      getParserFilterPreset g "" = none) ∧
    getParserFilterPreset "" "Windows XP" = some "winxp" ∧
    getParserFilterPreset "" "Windows Server 2003 R2" = some "winxp" ∧
    getParserFilterPreset "" "Windows 10" = some "win7" ∧
    getParserFilterPreset "" "" = none := by
  refine ⟨?_, ?_, ?_, ?_, by decide, by decide, by decide, ?_,
    by decide, by decide, by decide, by decide⟩
  · intro g v hv h1
    simp [getParserFilterPreset, hv, h1]
  · intro g v hv h1 h2
    simp [getParserFilterPreset, hv, h1, h2]
  · intro g v hv h1 h2 h3
    simp [getParserFilterPreset, hv, h1, h2, h3]
  · intro g v hv h1 h2 h3 h4
    simp [getParserFilterPreset, hv, h1, h2, h3, h4]
  · intro g h1 h2 h3
    by_cases hg : g = "" <;>
      simp [getParserFilterPreset, hg, h1, h2, h3]

theorem getParserFilterPreset_spec_witness :
    getParserFilterPreset "MacOSX" "Windows XP Professional" = some "winxp" ∧
    getParserFilterPreset "FreeBSD" "" = none :=
  ⟨getParserFilterPreset_spec.1 "MacOSX" "Windows XP Professional"
      (by decide) (by decide),
   getParserFilterPreset_spec.2.2.2.2.2.2.2.1 "FreeBSD"
      (by decide) (by decide) (by decide)⟩

/-- C10: when `osVersion` is non-empty but contains none of the Windows
substrings, resolution does not stop at the version step: the result is
the same as with an empty `osVersion`, so the guess is still consulted;
in particular `Resolve(Linux, "Ubuntu 14.04") = linux`. -/
theorem preset_os_version_fallthrough :
    (∀ g v, v ≠ "" →
      strContains (strLower v) "windows xp" = false →
      strContains (strLower v) "windows server 2000" = false →
      strContains (strLower v) "windows server 2003" = false →
      strContains (strLower v) "windows" = false →
      getParserFilterPreset g v = getParserFilterPreset g "") ∧
    getParserFilterPreset OS_LINUX "Ubuntu 14.04" = some "linux" := by
  refine ⟨?_, by decide⟩
  intro g v hv h1 h2 h3 h4
  simp [getParserFilterPreset, hv, h1, h2, h3, h4]

theorem preset_os_version_fallthrough_witness :
    getParserFilterPreset "Linux" "Ubuntu 14.04" =
      getParserFilterPreset "Linux" "" :=
  preset_os_version_fallthrough.1 "Linux" "Ubuntu 14.04"
    (by decide) (by decide) (by decide) (by decide) (by decide)

/-- C4: storage-target validation fails with `BadConfigOption` (the
spec's `InvalidConfiguration`) when the path exists and is not a regular
file, and when the containing directory is not writable; an existing
regular file in a writable directory passes with the append warning
recorded; and a validation failure aborts `ProcessSources` with that
error, before any engine is created. -/
theorem storage_target_validation :
    (∀ w p, w.pathExists p = true → w.isFile p = false →
      checkStorageFile w p = Except.error (PlasoError.badConfigOption
        "Storage file already exists and is not a file.")) ∧
    (∀ w p, (w.pathExists p = false ∨ w.isFile p = true) →
      w.access (storageDirname w p) = false →
      checkStorageFile w p = Except.error (PlasoError.badConfigOption
        "Unable to write to storage file.")) ∧
    (∀ w p, w.pathExists p = true → w.isFile p = true →
      w.access (storageDirname w p) = true →
      checkStorageFile w p = Except.ok true) ∧
    (∀ w st a e, checkStorageFile w st.storage_file_path = Except.error e →
      processSources w st a = Except.error e) := by
  refine ⟨?_, ?_, ?_, ?_⟩
  · intro w p h1 h2
    simp [checkStorageFile, h1, h2]
  · intro w p h1 h2
    rcases h1 with h1 | h1 <;> simp [checkStorageFile, h1, h2]
  · intro w p h1 h2 h3
    simp [checkStorageFile, h1, h2, h3]
  · intro w st a e h
    simp [processSources, h]

/-- A world in which the storage path exists but is not a regular
file. -/
def existsNotFileWorld : World :=
  { baseWorld with pathExists := fun _ => true, isFile := fun _ => false }

/-- A world in which the storage directory is not writable. -/
def unwritableWorld : World :=
  { baseWorld with access := fun _ => false }

/-- A world in which the storage path exists and is a regular file in a
writable directory. -/
def appendWorld : World :=
  { baseWorld with pathExists := fun _ => true, isFile := fun _ => true }

/-- The front-end state after `SetStorageFile("plaso.db")`. -/
def storageSetState : FrontendState :=
  { initialFrontendState with storage_file_path := some "plaso.db" }

theorem storage_target_validation_witness :
    checkStorageFile existsNotFileWorld (some "plaso.db") =
      Except.error (PlasoError.badConfigOption
        "Storage file already exists and is not a file.") ∧
    checkStorageFile unwritableWorld (some "plaso.db") =
      Except.error (PlasoError.badConfigOption
        "Unable to write to storage file.") ∧
    checkStorageFile appendWorld (some "plaso.db") = Except.ok true ∧
    processSources existsNotFileWorld storageSetState defaultArgs =
      Except.error (PlasoError.badConfigOption
        "Storage file already exists and is not a file.") :=
  ⟨storage_target_validation.1 existsNotFileWorld (some "plaso.db") rfl rfl,
   storage_target_validation.2.1 unwritableWorld (some "plaso.db")
     (Or.inl rfl) rfl,
   storage_target_validation.2.2.1 appendWorld (some "plaso.db") rfl rfl rfl,
   storage_target_validation.2.2.2 existsNotFileWorld storageSetState
     defaultArgs _ rfl⟩

/-- C5: a source of type File forces single-process mode regardless of
the caller-supplied `single_process_mode`: the engine built is the
single-process variant and the dispatch takes the single-process
branch. -/
theorem file_source_single_process :
    ∀ w st a r, a.source_type = SOURCE_TYPE_FILE →
      processSources w st a = Except.ok r →
      r.engine.singleProcess = true ∧ r.dispatchSingleProcess = true := by
  intro w st a r hs h
  obtain ⟨warn, hc, hr⟩ := processSources_ok_cases w st a r h
  subst hr
  constructor
  · simp [runAfterCheck, createEngine_singleProcess, hs]
  · simp [runAfterCheck, hs]

/-- `ProcessSources` arguments for a single-file source with
multi-process mode requested. -/
def fileArgs : ProcessArgs :=
  { defaultArgs with source_type := SOURCE_TYPE_FILE,
                     single_process_mode := false }

theorem file_source_single_process_witness :
    (runAfterCheck baseWorld initialFrontendState fileArgs
      false).engine.singleProcess = true ∧
    (runAfterCheck baseWorld initialFrontendState fileArgs
      false).dispatchSingleProcess = true :=
  file_source_single_process baseWorld initialFrontendState fileArgs _ rfl rfl

theorem contains_source_types (s : String) :
    SOURCE_TYPES_TO_PREPROCESS.contains s = true ↔
      (s = SOURCE_TYPE_DIRECTORY ∨ s = SOURCE_TYPE_STORAGE_MEDIA_DEVICE ∨
       s = SOURCE_TYPE_STORAGE_MEDIA_IMAGE) := by
  simp [SOURCE_TYPES_TO_PREPROCESS]

/-- C6: preprocessing is invoked exactly when it is forced or the source
type is a directory, storage-media device or storage-media image; in
particular a File source without forcing does not trigger it. -/
theorem preprocess_trigger_condition :
    ∀ w st a r, processSources w st a = Except.ok r →
      (r.preprocessInvoked = true ↔
        (a.force_preprocessing = true ∨ a.source_type = SOURCE_TYPE_DIRECTORY ∨
         a.source_type = SOURCE_TYPE_STORAGE_MEDIA_DEVICE ∨
         a.source_type = SOURCE_TYPE_STORAGE_MEDIA_IMAGE)) ∧
      (a.source_type = SOURCE_TYPE_FILE → a.force_preprocessing = false →
        r.preprocessInvoked = false) := by
  intro w st a r h
  obtain ⟨warn, hc, hr⟩ := processSources_ok_cases w st a r h
  subst hr
  constructor
  · simp [runAfterCheck, SOURCE_TYPES_TO_PREPROCESS, Bool.or_eq_true]
  · intro hs hf
    simp [runAfterCheck, hs, hf]
    decide

theorem preprocess_trigger_condition_witness :
    ((runAfterCheck baseWorld initialFrontendState fileArgs
        false).preprocessInvoked = true ↔
      (fileArgs.force_preprocessing = true ∨
       fileArgs.source_type = SOURCE_TYPE_DIRECTORY ∨
       fileArgs.source_type = SOURCE_TYPE_STORAGE_MEDIA_DEVICE ∨
       fileArgs.source_type = SOURCE_TYPE_STORAGE_MEDIA_IMAGE)) ∧
    (runAfterCheck baseWorld initialFrontendState fileArgs
      false).preprocessInvoked = false :=
  have h := preprocess_trigger_condition baseWorld initialFrontendState
    fileArgs _ rfl
  ⟨h.1, h.2 rfl rfl⟩

theorem preprocessSourcesFE_fst (w : World) (kb : KnowledgeBase) :
    (preprocessSourcesFE w kb).1 = (w.enginePreprocess kb).1 := by
  unfold preprocessSourcesFE
  rcases h : w.enginePreprocess kb with ⟨kb2, _ | m⟩ <;> simp

theorem preprocessSourcesFE_raised (w : World) (kb : KnowledgeBase)
    (m : String) (h : (w.enginePreprocess kb).2 = some m) :
    (preprocessSourcesFE w kb).2 = true := by
  unfold preprocessSourcesFE
  rcases he : w.enginePreprocess kb with ⟨kb2, o⟩
  rw [he] at h
  simp at h
  subst h
  rfl

/-- C3: when preprocessing runs and the engine raises an `IOError`, the
error does not propagate out of `ProcessSources`: given a storage target
that validates, the run completes to dispatch, the raised error is
recorded as swallowed, and the knowledge base carried forward is
whatever the failed preprocessing attempt left behind. -/
theorem preprocess_io_failure_nonfatal :
    ∀ w st a warn m,
      checkStorageFile w st.storage_file_path = Except.ok warn →
      (a.force_preprocessing ||
        SOURCE_TYPES_TO_PREPROCESS.contains a.source_type) = true →
      (w.enginePreprocess w.freshKnowledgeBase).2 = some m →
      ∃ r, processSources w st a = Except.ok r ∧
        r.preprocessInvoked = true ∧
        r.preprocessRaisedIOError = true ∧
        r.kbAfterPreprocess = (w.enginePreprocess w.freshKnowledgeBase).1 := by
  intro w st a warn m hc hp hio
  refine ⟨runAfterCheck w st a warn, ?_, ?_, ?_, ?_⟩
  · simp [processSources, hc]
  · simp only [runAfterCheck]
    exact hp
  · simp only [runAfterCheck, createEngine_knowledge_base, hp, if_true]
    exact preprocessSourcesFE_raised w w.freshKnowledgeBase m hio
  · simp only [runAfterCheck, createEngine_knowledge_base, hp, if_true]
    exact preprocessSourcesFE_fst w w.freshKnowledgeBase

/-- A world whose engine preprocessing raises an `IOError`. -/
def ioFailWorld : World :=
  { baseWorld with enginePreprocess := fun kb => (kb, some "boom") }

theorem preprocess_io_failure_nonfatal_witness :
    ∃ r, processSources ioFailWorld initialFrontendState defaultArgs =
        Except.ok r ∧
      r.preprocessInvoked = true ∧
      r.preprocessRaisedIOError = true ∧
      r.kbAfterPreprocess =
        (ioFailWorld.enginePreprocess ioFailWorld.freshKnowledgeBase).1 :=
  preprocess_io_failure_nonfatal ioFailWorld initialFrontendState defaultArgs
    false "boom" rfl rfl rfl

/-- C2: for every completed run, the session's enabled parser names are
the registry listing for the resolved parser-filter expression, that
same resolved expression is recorded in the session and handed to the
engine dispatch, and when no truthy expression was supplied by the
caller the resolved expression is the preset derived from the
post-preprocessing knowledge base, not the raw caller input. -/
theorem session_filter_consistency :
    ∀ w st a r, processSources w st a = Except.ok r →
      r.session.enabled_parser_names =
        w.getParserAndPluginNames r.resolvedFilterExpr ∧
      r.session.parser_filter_expression = r.resolvedFilterExpr ∧
      r.dispatchFilterExpr = r.resolvedFilterExpr ∧
      (strTruthy a.parser_filter_expression = false →
        r.resolvedFilterExpr =
          getParserFilterPreset r.kbAfterPreprocess.platform
            ((r.kbAfterPreprocess.getValue "osversion").getD "")) := by
  intro w st a r h
  obtain ⟨warn, hc, hr⟩ := processSources_ok_cases w st a r h
  subst hr
  refine ⟨?_, ?_, ?_, ?_⟩
  · simp [runAfterCheck, createSession]
  · simp [runAfterCheck, createSession]
  · simp [runAfterCheck]
  · intro hf
    simp [runAfterCheck, hf]

theorem session_filter_consistency_witness :
    (runAfterCheck baseWorld initialFrontendState defaultArgs
        false).session.enabled_parser_names =
      baseWorld.getParserAndPluginNames
        (runAfterCheck baseWorld initialFrontendState defaultArgs
          false).resolvedFilterExpr ∧
    (runAfterCheck baseWorld initialFrontendState defaultArgs
        false).session.parser_filter_expression =
      (runAfterCheck baseWorld initialFrontendState defaultArgs
        false).resolvedFilterExpr ∧
    (runAfterCheck baseWorld initialFrontendState defaultArgs
        false).dispatchFilterExpr =
      (runAfterCheck baseWorld initialFrontendState defaultArgs
        false).resolvedFilterExpr ∧
    (runAfterCheck baseWorld initialFrontendState defaultArgs
        false).resolvedFilterExpr =
      getParserFilterPreset
        (runAfterCheck baseWorld initialFrontendState defaultArgs
          false).kbAfterPreprocess.platform
        (((runAfterCheck baseWorld initialFrontendState defaultArgs
          false).kbAfterPreprocess.getValue "osversion").getD "") :=
  have h := session_filter_consistency baseWorld initialFrontendState
    defaultArgs _ rfl
  ⟨h.1, h.2.1, h.2.2.1, h.2.2.2 rfl⟩

theorem applyOp_filter_expression (st : FrontendState) (op : FrontendOp) :
    (applyOp st op).filter_expression = st.filter_expression := by
  cases op with
  | disableProfiling => rfl
  | enableProfiling d r t => rfl
  | setDebugMode b => rfl
  | setShowMemoryInformation b => rfl
  | setStorageFile p => rfl
  | setTextPrepend t => rfl
  | setUseZeroMQ b => rfl
  | runProcessSources w a =>
    show (stateAfterProcessSources w st a).filter_expression =
      st.filter_expression
    unfold stateAfterProcessSources
    cases processSources w st a <;> rfl

theorem applyOps_filter_expression (ops : List FrontendOp)
    (st : FrontendState) :
    (applyOps st ops).filter_expression = st.filter_expression := by
  induction ops generalizing st with
  | nil => rfl
  | cons op ops ih =>
    have h := ih (applyOp st op)
    simp [applyOps, h, applyOp_filter_expression]

/-- C9: the session's `filter_expression` is always `none`: the
underlying instance attribute is initialized to `None` by the
constructor and no public front-end operation ever assigns it, so every
run started from any reachable state snapshots `none` into the
session. -/
theorem session_filter_expression_always_none :
    ∀ ops w a r,
      processSources w (applyOps initialFrontendState ops) a = Except.ok r →
      r.session.filter_expression = none := by
  intro ops w a r h
  obtain ⟨warn, hc, hr⟩ :=
    processSources_ok_cases w (applyOps initialFrontendState ops) a r h
  subst hr
  simp [runAfterCheck, createSession, applyOps_filter_expression,
    initialFrontendState]

/-- A sample sequence of public configuration calls. -/
def witnessOps : List FrontendOp :=
  [FrontendOp.setStorageFile "plaso.db", FrontendOp.setDebugMode true,
   FrontendOp.setUseZeroMQ false]

theorem session_filter_expression_always_none_witness :
    (runAfterCheck baseWorld (applyOps initialFrontendState witnessOps)
      defaultArgs false).session.filter_expression = none :=
  session_filter_expression_always_none witnessOps baseWorld defaultArgs _ rfl

theorem setTimezone_snd (w : World) (kb : KnowledgeBase)
    (tz : Option String) :
    (setTimezone w kb tz).2 = selectTimezone kb tz := by
  unfold setTimezone
  cases h : w.timezoneSupported (selectTimezone kb tz) <;> simp [h]

theorem setTimezone_supported (w : World) (kb : KnowledgeBase)
    (tz : Option String)
    (h : w.timezoneSupported (selectTimezone kb tz) = true) :
    (setTimezone w kb tz).1.timezone = selectTimezone kb tz := by
  unfold setTimezone
  simp [h]

/-- Spec-side comparator for C7, following the spec's words: the
effective timezone is the knowledge-base value when non-empty, else the
caller-supplied value when non-empty, else the hard-coded `"UTC"`. -/
def timezonePrecedenceSpec (kbValue callerValue : Option String) : String :=
  if strTruthy kbValue then kbValue.getD "UTC"
  else if strTruthy callerValue then callerValue.getD "UTC"
  else "UTC"

/-- C7: the timezone string attempted on the engine's knowledge base is
selected exactly by the spec's precedence (knowledge-base value over
caller-supplied value over `"UTC"`), and when that string is supported
it is the one applied. -/
theorem timezone_precedence_refines_spec :
    ∀ (w : World) (kb : KnowledgeBase) (tz : Option String),
      (setTimezone w kb tz).2 =
        timezonePrecedenceSpec (kb.getValue "time_zone_str") tz ∧
      (w.timezoneSupported
          (timezonePrecedenceSpec (kb.getValue "time_zone_str") tz) = true →
        (setTimezone w kb tz).1.timezone =
          timezonePrecedenceSpec (kb.getValue "time_zone_str") tz) := by
  intro w kb tz
  have hsel : selectTimezone kb tz =
      timezonePrecedenceSpec (kb.getValue "time_zone_str") tz := by
    unfold selectTimezone timezonePrecedenceSpec
    cases hk : strTruthy (kb.getValue "time_zone_str") <;>
      cases ht : strTruthy tz <;> simp [hk, ht]
  refine ⟨by rw [setTimezone_snd, hsel], ?_⟩
  intro hsup
  rw [← hsel] at hsup
  rw [setTimezone_supported w kb tz hsup, hsel]

theorem timezone_precedence_refines_spec_witness :
    (setTimezone baseWorld flatKB (some "Europe/Berlin")).1.timezone =
      timezonePrecedenceSpec (flatKB.getValue "time_zone_str")
        (some "Europe/Berlin") :=
  (timezone_precedence_refines_spec baseWorld flatKB
    (some "Europe/Berlin")).2 (by decide)

/-- A world supporting only the timezones `UTC` and
`Europe/Amsterdam`. -/
def limitedTZWorld : World :=
  { baseWorld with
      timezoneSupported := fun s => s == "UTC" || s == "Europe/Amsterdam" }

/-- A knowledge base reporting the unsupported timezone `Mars/Phobos`. -/
def bogusTZKB : KnowledgeBase :=
  { flatKB with
      getValue := fun k =>
        if k = "time_zone_str" then some "Mars/Phobos" else none }

/-- C8 counterexample: with an unsupported knowledge-base timezone and a
supported caller-supplied timezone, `_SetTimezone` does not fall through
to the next precedence level: only the knowledge-base value is
attempted and the engine timezone stays `"UTC"` instead of becoming the
caller's supported value. -/
theorem timezone_no_fallthrough_cex :
    strTruthy (bogusTZKB.getValue "time_zone_str") = true ∧
    limitedTZWorld.timezoneSupported "Mars/Phobos" = false ∧
    limitedTZWorld.timezoneSupported "Europe/Amsterdam" = true ∧
    (setTimezone limitedTZWorld bogusTZKB (some "Europe/Amsterdam")).2 =
      "Mars/Phobos" ∧
    (setTimezone limitedTZWorld bogusTZKB
      (some "Europe/Amsterdam")).1.timezone = "UTC" ∧
    (setTimezone limitedTZWorld bogusTZKB
      (some "Europe/Amsterdam")).1.timezone ≠ "Europe/Amsterdam" := by
  refine ⟨rfl, rfl, rfl, rfl, rfl, by decide⟩

/-- C8 (amended): when the single timezone string selected by the
precedence (knowledge-base value if non-empty, else caller value if
non-empty, else `"UTC"`) is unsupported, the failure is caught and the
knowledge base is left entirely unchanged; no lower precedence level is
retried and nothing propagates. -/
theorem timezone_unsupported_unchanged :
    ∀ (w : World) (kb : KnowledgeBase) (tz : Option String),
      w.timezoneSupported (selectTimezone kb tz) = false →
      setTimezone w kb tz = (kb, selectTimezone kb tz) := by
  intro w kb tz h
  unfold setTimezone
  simp [h]

theorem timezone_unsupported_unchanged_witness :
    setTimezone limitedTZWorld bogusTZKB (some "Europe/Amsterdam") =
      (bogusTZKB, selectTimezone bogusTZKB (some "Europe/Amsterdam")) :=
  timezone_unsupported_unchanged limitedTZWorld bogusTZKB
    (some "Europe/Amsterdam") (by decide)

